import Mathlib

/-!
Verification development for the payment-gateway microservice
(`microservice/schema.py`, `microservice/main.py`,
`microservice/gateways/cardconnect.py`, `microservice/gateways/payload.py`).

The Python source is shallowly embedded: every upstream HTTP interaction is
an explicit oracle value passed to the adapter function, Python `dict` JSON
bodies become records of `Option String` fields (`none` = key absent),
Python exception handling becomes explicit branching with the state carried
at the point of the fault, and Python truthiness tests on optional strings
are modelled by `truthy`.
-/

set_option autoImplicit false

namespace PaymentGateway

/-- A single-quote character, used inside modelled message strings. -/
def sq : String := String.singleton (Char.ofNat 39)

/-- Python truthiness of an optional string: `None` and the empty string are
falsy, every other string is truthy.  Models `if x:` / `x and ...` tests on
`dict.get` results in the source. -/
def truthy : Option String → Bool
  | none => false
  | some s => s != ""

/-- Models Python string slicing `s[:n]` (the first `n` code points). -/
def strTake (s : String) (n : Nat) : String := ⟨s.data.take n⟩

/-! ## Data model (`schema.py`) -/

/-- The `Payment` request model of `schema.py` (fields relevant to the
adapters' logic; amounts are carried opaquely as integers). -/
structure Payment where
  gatewayTypeId : Int
  merchantAccountId : Int
  credentialKeys : List String
  account : String
  expDate : String
  amount : Int
  cvv2 : String
  currencyType : Int
  name : Option String
  zip : Option String
  comment : Option String
  deriving DecidableEq

/-- The `Refund` request model of `schema.py`. -/
structure Refund where
  gatewayTypeId : Int
  merchantAccountId : Int
  credentialKeys : List String
  paymentTransactionId : String
  amount : Option Int
  comment : Option String
  deriving DecidableEq

/-- The `CurrencyCode` enum of `schema.py`: `CurrencyCode(x).name` succeeds
exactly on the four member values, otherwise the constructor raises. -/
def currencyCodeName : Int → Option String
  | 840 => some "USD"
  | 124 => some "CAD"
  | 826 => some "GBP"
  | 978 => some "EUR"
  | _ => none

/-- The `GatewayResponses` enum of `schema.py` as a name-to-value lookup,
modelling `GatewayResponses.__members__` / `GatewayResponses[name].value`. -/
def gatewayResponsesMember : String → Option Nat
  | "Approved" => some 200
  | "BadRequest" => some 400
  | "Unauthorized" => some 401
  | "Forbidden" => some 403
  | "NotFound" => some 404
  | "Conflict" => some 409
  | "InvalidAttributes" => some 422
  | "TooManyRequests" => some 429
  | "InternalServerError" => some 500
  | "ServiceUnavailable" => some 503
  | _ => none

/-! ## CardConnect adapter (`gateways/cardconnect.py`) -/

/-- Credentials extracted by `CardConnectProcessor.__init__`. -/
structure CCProcessor where
  usr : String
  pwd : String
  merchantId : String
  deriving DecidableEq

/-- A parsed CardConnect JSON response body.  Each field is `none` when the
corresponding key is absent from the JSON object. -/
structure CCJson where
  respstat : Option String := none
  resptext : Option String := none
  retref : Option String := none
  voidable : Option String := none
  refundable : Option String := none
  authcode : Option String := none
  deriving DecidableEq

/-- Outcome of one `requests` call against a CardConnect endpoint:
either an HTTP response (whose body parses to `some j`, or fails
`json.loads` when `none` and the code is 200), or a raised transport
exception (`exn`). -/
inductive CCResponse where
  | ok (status : Nat) (body : Option CCJson)
  | exn
  deriving DecidableEq

/-- The canonical result record built in the `finally` blocks of
`CardConnectProcessor.process_payment` / `process_refund`.  In the source
`statusCode` (`payload_processing_status`) is always set to
`gatewayHttpStatusCode`, so a single status field is kept alongside both
names. -/
structure CCResult where
  success : Bool
  transactionId : Option String
  statusCode : Nat
  gatewayHttpStatusCode : Nat
  responseMessage : Option String
  merchantAccountId : Int
  deriving DecidableEq

/-- The request body assembled by `process_payment` for the `auth` endpoint
(cardconnect.py lines 122-145).  `postal = none` means the `postal` key is
absent; `nameField = none` would mean the `name` key absent, while
`nameField = some v` means the key is present with value `v`
(`v = none` rendering as JSON `null`). -/
structure CCAuthData where
  merchid : String
  account : String
  expiry : String
  amount : Int
  cvv2 : String
  currency : String
  ecomind : String
  postal : Option String
  nameField : Option (Option String)
  userfieldsDescription : String
  deriving DecidableEq

/-- Models the construction of the `data` dict in `process_payment`
(cardconnect.py lines 122-145).  Returns `none` when
`CurrencyCode(payment.currencyType)` raises `ValueError`, i.e. the
currency code is not a member of the enum; in that case no request body
exists and no upstream call is made. -/
def buildAuthData (cc : CCProcessor) (p : Payment) : Option CCAuthData :=
  match currencyCodeName p.currencyType with
  | none => none
  | some cur => some
      { merchid := cc.merchantId
        account := p.account
        expiry := p.expDate
        amount := p.amount
        cvv2 := p.cvv2
        currency := cur
        ecomind := "E"
        -- `if payment.zip and payment.zip != '': data['postal'] = payment.zip`
        postal := if truthy p.zip then p.zip else none
        -- the dict initializer already contains `"name": payment.name`;
        -- the later conditional re-assignment never removes the key
        nameField := some p.name
        -- `description = payment.comment if payment.comment else ''`
        userfieldsDescription :=
          match p.comment with
          | some c => c
          | none => "" }

/-- The mutable locals of an adapter method tracked as a state record:
success flag, canonical HTTP-style status, message, transaction id. -/
structure RSt where
  success : Bool
  status : Nat
  message : Option String
  txnId : Option String
  deriving DecidableEq

/-- The state the `except` handler of `process_payment` leaves behind
(cardconnect.py 193-201): internal error 500, transaction id untouched
(`None` on every path that raises). -/
def ccPayInternal : RSt :=
  ⟨false, 500, some "There was an internal service error with your request.", none⟩

/-- The failure message of a 200 auth response that is not Approved
(cardconnect.py 167-178): the Retry or Declined base text with the vendor
`resptext` appended when present and non-empty. -/
def ccAuthFailMsg (j : CCJson) : String :=
  let base :=
    if j.respstat = some "B" then "Please retry the request."
    else "Authorization failed."
  match j.resptext with
  | some t => if t != "" then base ++ " " ++ t ++ "." else base
  | none => base

/-- Models the response interpretation of `process_payment`
(cardconnect.py 151-201): HTTP 200 bodies are parsed and classified by
`respstat`, 401 is an authorization error, any other status a network
error, and a transport exception or unparseable 200 body falls to the
`except` handler. -/
def ccAuthInterp (resp : CCResponse) : RSt :=
  match resp with
  | CCResponse.exn => ccPayInternal
  | CCResponse.ok status body =>
    if status = 200 then
      match body with
      | none => ccPayInternal
      | some j =>
        let txn := if truthy j.retref then j.retref else none
        if j.respstat = some "A" then ⟨true, 200, some "Success.", txn⟩
        else ⟨false, 400, some (ccAuthFailMsg j), txn⟩
    else if status = 401 then
      ⟨false, 401, some "There was an authorization error with your request.", none⟩
    else
      ⟨false, status, some "There was a network error with your request.", none⟩

/-- Models `CardConnectProcessor.process_payment` (cardconnect.py 69-213).
The oracle `resp` is the outcome of the single `requests.post` to the auth
endpoint.  When the request body cannot be constructed (invalid currency
code) the `except` handler fires before any call; the second component
records whether the upstream call was made. -/
def cc_process_payment (cc : CCProcessor) (p : Payment) (resp : CCResponse) :
    CCResult × Bool :=
  let step : RSt × Bool :=
    match buildAuthData cc p with
    | none => (ccPayInternal, false)
    | some _ => (ccAuthInterp resp, true)
  ({ success := step.1.success
     transactionId := step.1.txnId
     statusCode := step.1.status
     gatewayHttpStatusCode := step.1.status
     responseMessage := step.1.message
     merchantAccountId := p.merchantAccountId }, step.2)

/-- Initial refund state (cardconnect.py 221-224). -/
def rInit : RSt := ⟨false, 200, none, none⟩

/-- Which upstream reversal calls `process_refund` issued. -/
structure CallLog where
  voidCalled : Bool
  refundCalled : Bool
  deriving DecidableEq

/-- The inner `except` handler of the void call (cardconnect.py 321-332):
applied to the state at the moment a Python exception is raised inside the
void `try` block. -/
def voidHandler (orig : String) (st : RSt) : RSt :=
  { st with
      message := some "An unknown error occurred while processing void transaction."
      status := 500
      txnId := some orig }

/-- The unconditional `refund_transaction_id = void_resp_json['retref']`
ending the HTTP-200 void interpretation (cardconnect.py 307): a missing
`retref` raises `KeyError` into the handler. -/
def ccVoidRetref (orig : String) (j : CCJson) (st : RSt) : RSt :=
  match j.retref with
  | none => voidHandler orig st
  | some r => { st with txnId := some r }

/-- Models the `if/elif/else` interpretation of a parsed HTTP-200 void
response body followed by the `retref` assignment (cardconnect.py
262-307).  Faults inside the block jump to `voidHandler` with the state at
the fault: a `KeyError` on a missing `resptext` (lines 285, 304), the
`TypeError` from `message += ...` while `message` is still `None` — the
bare-string statement on line 303 never assigns it — and the `KeyError`
on a missing `retref` (line 307). -/
def ccVoid200 (orig : String) (j : CCJson) (st : RSt) : RSt :=
  if j.respstat = some "A" ∧ j.authcode = some "REVERS" then
    ccVoidRetref orig j
      { st with success := true, message := some "Successfully voided transaction." }
  else if j.respstat = some "A" ∧ j.authcode = some "NULL" then
    match j.resptext with
    | none => voidHandler orig { st with message := some "Void transaction was unsuccessful." }
    | some t =>
      ccVoidRetref orig j
        { st with
            message := some ("Void transaction was unsuccessful." ++ " " ++ t)
            status := 400 }
  else if ¬ truthy j.authcode ∧ j.respstat = some "A" then
    ccVoidRetref orig j { st with success := true, message := some "success" }
  else
    -- line 301 assigns `message` only in the Retry case; line 303 is a bare
    -- string expression, so in the Declined/other case `message` is unchanged
    let m : Option String :=
      if j.respstat = some "B" then some "Unable to complete void transaction." else st.message
    match j.resptext with
    | none => voidHandler orig { st with message := m }
    | some t =>
      match m with
      | none => voidHandler orig { st with message := none }
      | some m0 =>
        ccVoidRetref orig j { st with message := some (m0 ++ " " ++ t), status := 409 }

/-- Models the void call and its response handling (cardconnect.py 253-332),
given the oracle `resp` for the `requests.post` to the void endpoint. -/
def ccVoid (orig : String) (resp : CCResponse) (st : RSt) : RSt :=
  match resp with
  | CCResponse.exn => voidHandler orig st
  | CCResponse.ok code body =>
    if code = 200 then
      match body with
      | none => voidHandler orig st
      | some j => ccVoid200 orig j st
    else if code = 401 then
      { st with
          status := 401
          message := some "There was an authorization error while processing a void request." }
    else
      { st with
          status := code
          txnId := some orig
          message := some "Unable to complete void transaction." }

/-- The inner `except` handler of the refund call (cardconnect.py 392-402). -/
def refundHandler (orig : String) (st : RSt) : RSt :=
  { st with
      message := some "An unknown error occurred while processing refund transaction."
      status := 500
      txnId := some orig }

/-- The conditional `if refund_resp_json.get('retref', None): ...` ending
the HTTP-200 refund interpretation (cardconnect.py 377-378). -/
def ccRefundRetref (j : CCJson) (st : RSt) : RSt :=
  if truthy j.retref then { st with txnId := j.retref } else st

/-- Models the interpretation of a parsed HTTP-200 refund response body
(cardconnect.py 362-378).  In the failure branch the `KeyError` on a
missing `resptext` (line 375) jumps to `refundHandler` with the 400 state
already in place. -/
def ccRefund200 (orig : String) (j : CCJson) (st : RSt) : RSt :=
  if j.respstat = some "A" then
    ccRefundRetref j
      { st with success := true, message := some "Successful refund transaction." }
  else
    let base :=
      if j.respstat = some "B" then "Please retry the request." else "Refund failed."
    match j.resptext with
    | none => refundHandler orig { st with status := 400, message := some base }
    | some t =>
      ccRefundRetref j { st with status := 400, message := some (base ++ " " ++ t) }

/-- Models the refund call and its response handling (cardconnect.py
344-402), given the oracle `resp` for the `requests.post` to the refund
endpoint. -/
def ccRefundCall (orig : String) (resp : CCResponse) (st : RSt) : RSt :=
  match resp with
  | CCResponse.exn => refundHandler orig st
  | CCResponse.ok code body =>
    if code = 200 then
      match body with
      | none => refundHandler orig st
      | some j => ccRefund200 orig j st
    else if code = 401 then
      { st with
          status := 401
          message := some "There was an authorization error while processing the refund request." }
    else
      { st with
          status := code
          txnId := some orig
          message := some "Unable to complete refund transaction" }

/-- The upstream responses `process_refund` may consume: the inquiry
response, and the void / refund responses used only when the corresponding
call is reached. -/
structure CCRefundOracle where
  inquire : CCResponse
  voidResp : CCResponse
  refundResp : CCResponse
  deriving DecidableEq

/-- The outer `except` handler of `process_refund` (cardconnect.py
427-437). -/
def inquireHandler (orig : String) (st : RSt) : RSt :=
  { st with
      message :=
        some "An unknown error occurred while retrieving your payment status. The refund was unsuccessful."
      status := 500
      txnId := some orig }

/-- Models the state machine of `CardConnectProcessor.process_refund`
(cardconnect.py 229-437): inquire, decide between void / refund /
conflict, interpret.  The `CallLog` records which reversal calls were
issued. -/
def ccRefundState (orig : String) (o : CCRefundOracle) : RSt × CallLog :=
  match o.inquire with
    | CCResponse.exn => (inquireHandler orig rInit, (⟨false, false⟩ : CallLog))
    | CCResponse.ok code body =>
      if code = 200 then
        match body with
        | none => (inquireHandler orig rInit, (⟨false, false⟩ : CallLog))
        | some j =>
          if j.respstat = some "A" then
            if j.voidable = some "Y" then
              (ccVoid orig o.voidResp rInit, (⟨true, false⟩ : CallLog))
            else if j.refundable = some "Y" then
              (ccRefundCall orig o.refundResp rInit, (⟨false, true⟩ : CallLog))
            else
              ({ rInit with
                  message := some "The refund cannot be processed at this time."
                  status := 409
                  txnId := some orig }, (⟨false, false⟩ : CallLog))
          else
            ({ rInit with
                message := some "The payment requested was not authorized or does not exist."
                status := 409
                txnId := some orig }, (⟨false, false⟩ : CallLog))
      else if code = 401 then
        ({ rInit with
            status := 401
            message :=
              some "There was an authorization error while accessing your previous payment status." },
         (⟨false, false⟩ : CallLog))
      else
        ({ rInit with
            status := code
            message :=
              some "Unable to complete request for payment status. Please contact BlueVolt support."
            txnId := some orig }, (⟨false, false⟩ : CallLog))

/-- Models `CardConnectProcessor.process_refund` (cardconnect.py 215-450):
run the refund state machine, then build the canonical result record in
the `finally` block. -/
def cc_process_refund (cc : CCProcessor) (r : Refund) (o : CCRefundOracle) :
    CCResult × CallLog :=
  let step := ccRefundState r.paymentTransactionId o
  ({ success := step.1.success
     transactionId := step.1.txnId
     statusCode := step.1.status
     gatewayHttpStatusCode := step.1.status
     responseMessage := step.1.message
     merchantAccountId := r.merchantAccountId }, step.2)

/-! ## Payload adapter (`gateways/payload.py`) -/

/-- The eight `payload.exceptions` classes caught by the grouped handler in
both Payload methods. -/
inductive PlFaultType where
  | invalidAttributes
  | internalServerError
  | unauthorized
  | notFound
  | tooManyRequests
  | serviceUnavailable
  | badRequest
  | forbidden
  deriving DecidableEq

/-- `type(error).__name__` for each caught Payload exception class. -/
def plFaultName : PlFaultType → String
  | PlFaultType.invalidAttributes => "InvalidAttributes"
  | PlFaultType.internalServerError => "InternalServerError"
  | PlFaultType.unauthorized => "Unauthorized"
  | PlFaultType.notFound => "NotFound"
  | PlFaultType.tooManyRequests => "TooManyRequests"
  | PlFaultType.serviceUnavailable => "ServiceUnavailable"
  | PlFaultType.badRequest => "BadRequest"
  | PlFaultType.forbidden => "Forbidden"

/-- Data carried by a caught Payload fault.  `hasResponse = false` models
`getattr(error, 'response')` (or the subsequent inspection) raising, which
sends the handler to the `error.__dict__` fallback; `cardNumberMsg` is the
nested `details.payment_method.card.card_number` text when present;
`responseText` renders `error.response`; `dictText` renders
`error.__dict__`. -/
structure PlFault where
  ftype : PlFaultType
  hasResponse : Bool
  cardNumberMsg : Option String
  responseText : String
  dictText : String
  deriving DecidableEq

/-- The grouped fault handler of `PayloadProcessor.process_payment`
(payload.py 71-103): map the class name through `GatewayResponses`, then
prefer the nested card-number message, then `error.response`, then
`error.__dict__`. -/
def handleFaultPayment (f : PlFault) : Nat × String :=
  match gatewayResponsesMember (plFaultName f.ftype) with
  | some code =>
      (code,
        if f.hasResponse then
          match f.cardNumberMsg with
          | some m => m
          | none => f.responseText
        else f.dictText)
  | none => (400, "Unrecognized Payload error response")

/-- The grouped fault handler of `PayloadProcessor.process_refund`
(payload.py 158-178): as in the payment handler but with no nested
card-number probe. -/
def handleFaultRefund (f : PlFault) : Nat × String :=
  match gatewayResponsesMember (plFaultName f.ftype) with
  | some code => (code, if f.hasResponse then f.responseText else f.dictText)
  | none => (400, "Unrecognized Payload error response")

/-- Outcome of the `pl.Payment.create` call (consulted only when the call
is actually issued). -/
inductive PlCreateOutcome where
  | created (statusCode : String) (statusMessage : String) (id : String)
  | valueError (msg : String)
  | declined (txStatusCode : String) (httpCode : Nat) (txStatusMessage : String)
  | fault (f : PlFault)
  | other
  deriving DecidableEq

/-- The canonical result record built in the `finally` blocks of the
Payload methods; `statusCode` (`payload_processing_status`) is the
vendor-native status, left `none` when never set. -/
structure PlResult where
  success : Bool
  transactionId : Option String
  statusCode : Option String
  gatewayHttpStatusCode : Nat
  responseMessage : Option String
  merchantAccountId : Int
  deriving DecidableEq

/-- The mutable locals of a Payload adapter method tracked as a state
record. -/
structure PlSt where
  success : Bool
  transactionId : Option String
  statusCode : Option String
  http : Nat
  message : Option String
  deriving DecidableEq

/-- Failure state with no vendor status and no transaction id. -/
def plFailSt (code : Nat) (msg : String) : PlSt :=
  ⟨false, none, none, code, some msg⟩

/-- What `process_payment` transmitted upstream. -/
structure PlPaymentLog where
  createCalled : Bool
  sentDescription : Option String
  deriving DecidableEq

/-- Models the state machine of `PayloadProcessor.process_payment`
(payload.py 46-106).  The argument `description=payment.comment[:128]` is
evaluated before the `pl.Payment.create` call, so an absent comment raises
`TypeError` there, reaching the bare `except` (422, no call made). -/
def plPayState (comment : Option String) (outcome : PlCreateOutcome) :
    PlSt × PlPaymentLog :=
  match comment with
  | none => (plFailSt 422 "Unknown Payload response type", ⟨false, none⟩)
  | some c =>
    let log : PlPaymentLog := ⟨true, some (strTake c 128)⟩
    match outcome with
    | PlCreateOutcome.created sc sm id => (⟨true, some id, some sc, 200, some sm⟩, log)
    | PlCreateOutcome.valueError m => (plFailSt 400 m, log)
    | PlCreateOutcome.declined tsc hc tsm => (⟨false, none, some tsc, hc, some tsm⟩, log)
    | PlCreateOutcome.fault f =>
      ((plFailSt (handleFaultPayment f).1 (handleFaultPayment f).2), log)
    | PlCreateOutcome.other => (plFailSt 422 "Unknown Payload response type", log)

/-- Models `PayloadProcessor.process_payment` (payload.py 39-115): run the
state machine, then build the canonical result record in the `finally`
block. -/
def pl_process_payment (p : Payment) (outcome : PlCreateOutcome) :
    PlResult × PlPaymentLog :=
  let step := plPayState p.comment outcome
  ({ success := step.1.success
     transactionId := step.1.transactionId
     statusCode := step.1.statusCode
     gatewayHttpStatusCode := step.1.http
     responseMessage := step.1.message
     merchantAccountId := p.merchantAccountId }, step.2)

/-- Outcome of `pl.Payment.get` in `process_refund`. -/
inductive PlGetOutcome where
  | got (status : String) (fundingStatus : String) (amount : Int)
  | valueError (msg : String)
  | fault (f : PlFault)
  | other
  deriving DecidableEq

/-- Outcome of `pl.Transaction.get` in the void path: it either returns a
transaction object or raises. -/
inductive PlTxGetOutcome where
  | got
  | valueError (msg : String)
  | fault (f : PlFault)
  | other
  deriving DecidableEq

/-- Outcome of `refund_object.update(...)` or `pl.Refund.create(...)`:
the fields read from the resulting object afterwards, or a raised
exception. -/
inductive PlOpOutcome where
  | done (status : String) (statusMessage : String) (id : String)
  | valueError (msg : String)
  | fault (f : PlFault)
  | other
  deriving DecidableEq

/-- The upstream interactions `process_refund` may consume. -/
structure PlRefundOracle where
  getPayment : PlGetOutcome
  txGet : PlTxGetOutcome
  txUpdate : PlOpOutcome
  refundCreate : PlOpOutcome
  deriving DecidableEq

/-- Which reversal writes `process_refund` transmitted, with the
description each carried. -/
structure PlRefundLog where
  voidUpdateDescription : Option String
  refundCreateDescription : Option String
  deriving DecidableEq

/-- The `ValueError` message raised for an unknown funding status
(payload.py 145-146). -/
def unknownFundingMsg (fundingStatus : String) : String :=
  "Unknown funding status " ++ sq ++ fundingStatus ++ sq ++
    " encountered during refund process.  Payment was not refunded."

/-- Maps a raised exception from the void / refund write path through the
handlers of `process_refund` (payload.py 155-181). -/
def plRefundOpFail : PlOpOutcome → PlSt
  | PlOpOutcome.done _ _ _ => plFailSt 422 "Unknown Payload response type"
  | PlOpOutcome.valueError m => plFailSt 400 m
  | PlOpOutcome.fault f => plFailSt (handleFaultRefund f).1 (handleFaultRefund f).2
  | PlOpOutcome.other => plFailSt 422 "Unknown Payload response type"

/-- Models the state machine of `PayloadProcessor.process_refund`
(payload.py 125-181).  The three-way branch on the retrieved payment:
already voided ⇒ success with no new transaction; funding pending ⇒
`Transaction.get` then `update(status='voided',
description=comment[:128])`; funding batched ⇒ `Refund.create(...,
description=comment[:128])`; otherwise a local `ValueError` (400).  An
absent comment raises `TypeError` when the description argument is
evaluated, before the write call, reaching the bare `except` (422). -/
def plRefundState (comment : Option String) (o : PlRefundOracle) :
    PlSt × PlRefundLog :=
  let noLog : PlRefundLog := ⟨none, none⟩
  match o.getPayment with
  | PlGetOutcome.valueError m => (plFailSt 400 m, noLog)
  | PlGetOutcome.fault f =>
    (plFailSt (handleFaultRefund f).1 (handleFaultRefund f).2, noLog)
  | PlGetOutcome.other => (plFailSt 422 "Unknown Payload response type", noLog)
  | PlGetOutcome.got status fundingStatus _amount =>
    if status = "voided" then
      ((⟨true, none, some "voided", 200,
         some "Payment transaction has already been voided.  No further action has been taken."⟩ :
        PlSt), noLog)
    else if fundingStatus = "pending" then
      match o.txGet with
      | PlTxGetOutcome.valueError m => (plFailSt 400 m, noLog)
      | PlTxGetOutcome.fault f =>
        (plFailSt (handleFaultRefund f).1 (handleFaultRefund f).2, noLog)
      | PlTxGetOutcome.other => (plFailSt 422 "Unknown Payload response type", noLog)
      | PlTxGetOutcome.got =>
        match comment with
        | none => (plFailSt 422 "Unknown Payload response type", noLog)
        | some c =>
          let desc := strTake c 128
          match o.txUpdate with
          | PlOpOutcome.done st sm id =>
            ((⟨true, some id, some st, 200, some sm⟩ : PlSt), ⟨some desc, none⟩)
          | e => (plRefundOpFail e, ⟨some desc, none⟩)
    else if fundingStatus = "batched" then
      match comment with
      | none => (plFailSt 422 "Unknown Payload response type", noLog)
      | some c =>
        let desc := strTake c 128
        match o.refundCreate with
        | PlOpOutcome.done st sm id =>
          ((⟨true, some id, some st, 200, some sm⟩ : PlSt), ⟨none, some desc⟩)
        | e => (plRefundOpFail e, ⟨none, some desc⟩)
    else
      (plFailSt 400 (unknownFundingMsg fundingStatus), noLog)

/-- Models `PayloadProcessor.process_refund` (payload.py 117-190): run the
state machine, then build the canonical result record in the `finally`
block. -/
def pl_process_refund (r : Refund) (o : PlRefundOracle) :
    PlResult × PlRefundLog :=
  let step := plRefundState r.comment o
  ({ success := step.1.success
     transactionId := step.1.transactionId
     statusCode := step.1.statusCode
     gatewayHttpStatusCode := step.1.http
     responseMessage := step.1.message
     merchantAccountId := r.merchantAccountId }, step.2)

/-! ## Dispatcher (`main.py`) -/

/-- The `GatewayType` enum of `schema.py`: `GatewayType(x).name`. -/
def gatewayTypeName : Int → Option String
  | 1 => some "Payload"
  | 2 => some "CardConnect"
  | _ => none

/-- Required credential keys for Payload (`GatewayCredentials.Payload`). -/
def payloadRequiredKeys : List String := ["apiKey", "processingId"]

/-- Required credential keys for CardConnect
(`GatewayCredentials.CardConnect`). -/
def cardConnectRequiredKeys : List String := ["username", "password", "merchantId"]

/-- Outcome of the gateway-type / credential checks performed by the
endpoints before any adapter call. -/
inductive DispatchOutcome where
  | rejected (status : Nat) (detail : String)
  | invoke (gateway : String)
  deriving DecidableEq

/-- Models the adapter-selection logic shared verbatim by `submit_sale`
(main.py 177-224) and `submit_credit` (main.py 288-342): an unknown
gateway-type id is rejected with 400 before any adapter exists; a known
gateway whose required credential keys are not all present in the supplied
credential mapping is rejected with 400; otherwise the matching adapter is
instantiated and invoked. -/
def gatewayDispatch (gatewayTypeId : Int) (credKeys : List String) :
    DispatchOutcome :=
  if gatewayTypeId = 1 ∨ gatewayTypeId = 2 then
    let name := if gatewayTypeId = 1 then "Payload" else "CardConnect"
    let required := if gatewayTypeId = 1 then payloadRequiredKeys else cardConnectRequiredKeys
    if required.all (fun k => credKeys.contains k) then
      DispatchOutcome.invoke name
    else
      DispatchOutcome.rejected 400 ("Required credentials for " ++ name ++ " are not present")
  else
    DispatchOutcome.rejected 400 "Unknown payment gateway type"

/-! ## Sample concrete inputs (the test credentials and cards documented in
the source headers) -/

/-- The test credentials from the cardconnect.py header. -/
def ccTest : CCProcessor := ⟨"testing", "testing123", "496160873888"⟩

/-- A payment request against CardConnect with the documented approval test
card. -/
def paymentA : Payment :=
  { gatewayTypeId := 2
    merchantAccountId := 77
    credentialKeys := ["username", "password", "merchantId"]
    account := "4788250000121443"
    expDate := "1225"
    amount := 1000
    cvv2 := "123"
    currencyType := 840
    name := some "Test User"
    zip := some "97201"
    comment := some "order 42" }

/-- A refund request against CardConnect referencing a prior transaction. -/
def refundA : Refund :=
  { gatewayTypeId := 2
    merchantAccountId := 77
    credentialKeys := ["username", "password", "merchantId"]
    paymentTransactionId := "23456789"
    amount := some 1000
    comment := some "refund 42" }

/-! ## Helper lemmas: every path sets the message -/

theorem ccAuthInterp_message_isSome (resp : CCResponse) :
    ((ccAuthInterp resp).message).isSome = true := by
  rcases resp with ⟨status, _ | j⟩ | _ <;>
    simp only [ccAuthInterp] <;> (repeat' split) <;> rfl

theorem ccVoidRetref_message_some (orig : String) (j : CCJson) (a : Bool) (b : Nat)
    (m : String) (t : Option String) :
    ((ccVoidRetref orig j ⟨a, b, some m, t⟩).message).isSome = true := by
  simp only [ccVoidRetref]
  cases j.retref <;> rfl

theorem ccVoid200_message_isSome (orig : String) (j : CCJson) (st : RSt) :
    ((ccVoid200 orig j st).message).isSome = true := by
  simp only [ccVoid200]
  repeat' split
  all_goals first
    | rfl
    | exact ccVoidRetref_message_some orig j _ _ _ _

theorem ccVoid_message_isSome (orig : String) (resp : CCResponse) (st : RSt) :
    ((ccVoid orig resp st).message).isSome = true := by
  rcases resp with ⟨code, _ | j⟩ | _
  · simp only [ccVoid]; (repeat' split) <;> rfl
  · simp only [ccVoid]
    split
    · exact ccVoid200_message_isSome orig j st
    · split <;> rfl
  · rfl

theorem ccRefund200_message_isSome (orig : String) (j : CCJson) (st : RSt) :
    ((ccRefund200 orig j st).message).isSome = true := by
  simp only [ccRefund200, ccRefundRetref]
  repeat' split
  all_goals rfl

theorem ccRefundCall_message_isSome (orig : String) (resp : CCResponse) (st : RSt) :
    ((ccRefundCall orig resp st).message).isSome = true := by
  rcases resp with ⟨code, _ | j⟩ | _
  · simp only [ccRefundCall]; (repeat' split) <;> rfl
  · simp only [ccRefundCall]
    split
    · exact ccRefund200_message_isSome orig j st
    · split <;> rfl
  · rfl

theorem ccRefundState_message_isSome (orig : String) (o : CCRefundOracle) :
    ((ccRefundState orig o).1.message).isSome = true := by
  rcases o with ⟨inq, vr, rr⟩
  rcases inq with ⟨code, _ | j⟩ | _
  · simp only [ccRefundState] <;> (repeat' split) <;> rfl
  · simp only [ccRefundState]
    split
    · split
      · split
        · exact ccVoid_message_isSome orig vr rInit
        · split
          · exact ccRefundCall_message_isSome orig rr rInit
          · rfl
      · rfl
    · split <;> rfl
  · rfl

theorem plPayState_message_isSome (comment : Option String) (oc : PlCreateOutcome) :
    ((plPayState comment oc).1.message).isSome = true := by
  cases comment with
  | none => rfl
  | some c => cases oc <;> rfl

theorem plRefundState_message_isSome (comment : Option String) (o : PlRefundOracle) :
    ((plRefundState comment o).1.message).isSome = true := by
  rcases o with ⟨gp, tg, tu, rc⟩
  cases gp <;> cases comment <;> cases tg <;> cases tu <;> cases rc <;>
    simp only [plRefundState] <;> (repeat' split) <;> rfl

theorem buildAuthData_isSome (cc : CCProcessor) (p : Payment) :
    (buildAuthData cc p).isSome = (currencyCodeName p.currencyType).isSome := by
  cases h : currencyCodeName p.currencyType <;> simp [buildAuthData, h]

theorem strTake_length_le (s : String) (n : Nat) : (strTake s n).length ≤ n := by
  simp only [strTake, String.length, List.length_take]
  exact min_le_left _ _

/-! ## Claim theorems -/

/-- C1: Totality of the core boundary: for every `Payment` input,
`CardConnectProcessor.process_payment` and `PayloadProcessor.process_payment`
return a populated canonical result record (the record type carries the
success flag, transaction id, status code, message and merchant account id
fields; the message is set on every path and the merchant account id echoes
the request), and likewise both `process_refund` operations for every
`Refund` input; every upstream response or fault oracle terminates in such a
record, never an unhandled exception. -/
theorem C1_core_boundary_totality :
    (∀ (cc : CCProcessor) (p : Payment) (resp : CCResponse),
      ((cc_process_payment cc p resp).1.responseMessage).isSome = true ∧
      (cc_process_payment cc p resp).1.merchantAccountId = p.merchantAccountId) ∧
    (∀ (cc : CCProcessor) (r : Refund) (o : CCRefundOracle),
      ((cc_process_refund cc r o).1.responseMessage).isSome = true ∧
      (cc_process_refund cc r o).1.merchantAccountId = r.merchantAccountId) ∧
    (∀ (p : Payment) (oc : PlCreateOutcome),
      ((pl_process_payment p oc).1.responseMessage).isSome = true ∧
      (pl_process_payment p oc).1.merchantAccountId = p.merchantAccountId) ∧
    (∀ (r : Refund) (o : PlRefundOracle),
      ((pl_process_refund r o).1.responseMessage).isSome = true ∧
      (pl_process_refund r o).1.merchantAccountId = r.merchantAccountId) := by
  refine ⟨fun cc p resp => ⟨?_, rfl⟩, fun cc r o => ⟨?_, rfl⟩,
    fun p oc => ⟨?_, rfl⟩, fun r o => ⟨?_, rfl⟩⟩
  · show ((match buildAuthData cc p with
      | none => (ccPayInternal, false)
      | some _ => (ccAuthInterp resp, true)).1.message).isSome = true
    cases buildAuthData cc p with
    | none => rfl
    | some d => exact ccAuthInterp_message_isSome resp
  · exact ccRefundState_message_isSome r.paymentTransactionId o
  · exact plPayState_message_isSome p.comment oc
  · exact plRefundState_message_isSome r.comment o

/-- C10: implicit CardConnect currency whitelist: a payment whose
`currencyType` is not one of the four `CurrencyCode` members faults while
the request body is being built (`CurrencyCode(...)` raises `ValueError`),
so no upstream call is made and the result is the 500 internal-service
failure. -/
theorem C10_currency_whitelist (cc : CCProcessor) (p : Payment) (resp : CCResponse)
    (h : ¬(p.currencyType = 840 ∨ p.currencyType = 124 ∨
           p.currencyType = 826 ∨ p.currencyType = 978)) :
    cc_process_payment cc p resp =
      ({ success := false
         transactionId := none
         statusCode := 500
         gatewayHttpStatusCode := 500
         responseMessage := some "There was an internal service error with your request."
         merchantAccountId := p.merchantAccountId }, false) := by
  have hc : currencyCodeName p.currencyType = none := by
    unfold currencyCodeName
    split <;> simp_all
  simp [cc_process_payment, buildAuthData, hc, ccPayInternal]

/-- Witness for C10 at the concrete currency code 392 (not a member). -/
theorem C10_currency_whitelist_witness :
    ¬((392 : Int) = 840 ∨ (392 : Int) = 124 ∨ (392 : Int) = 826 ∨ (392 : Int) = 978) ∧
    (cc_process_payment ccTest { paymentA with currencyType := 392 } CCResponse.exn).2 = false := by
  refine ⟨by decide, ?_⟩
  have h := C10_currency_whitelist ccTest { paymentA with currencyType := 392 }
    CCResponse.exn (by decide)
  rw [h]

/-- C2: CardConnect refund decision determinism over a parsed HTTP-200
inquiry body: not-Approved ⇒ 409 echoing the original transaction id and
neither reversal call; Approved and voidable=Y ⇒ void issued, refund never;
Approved, not voidable=Y, refundable=Y ⇒ refund issued, void never;
Approved and neither flag ⇒ 409 echoing the id, neither call.  Voidable is
checked before refundable: the second conjunct holds whatever `refundable`
is. -/
theorem C2_refund_decision (cc : CCProcessor) (r : Refund) (j : CCJson)
    (vr rr : CCResponse) :
    (j.respstat ≠ some "A" →
      (cc_process_refund cc r ⟨CCResponse.ok 200 (some j), vr, rr⟩).1.statusCode = 409 ∧
      (cc_process_refund cc r ⟨CCResponse.ok 200 (some j), vr, rr⟩).1.transactionId =
        some r.paymentTransactionId ∧
      (cc_process_refund cc r ⟨CCResponse.ok 200 (some j), vr, rr⟩).2 = ⟨false, false⟩) ∧
    (j.respstat = some "A" → j.voidable = some "Y" →
      (cc_process_refund cc r ⟨CCResponse.ok 200 (some j), vr, rr⟩).2 = ⟨true, false⟩) ∧
    (j.respstat = some "A" → j.voidable ≠ some "Y" → j.refundable = some "Y" →
      (cc_process_refund cc r ⟨CCResponse.ok 200 (some j), vr, rr⟩).2 = ⟨false, true⟩) ∧
    (j.respstat = some "A" → j.voidable ≠ some "Y" → j.refundable ≠ some "Y" →
      (cc_process_refund cc r ⟨CCResponse.ok 200 (some j), vr, rr⟩).1.statusCode = 409 ∧
      (cc_process_refund cc r ⟨CCResponse.ok 200 (some j), vr, rr⟩).1.transactionId =
        some r.paymentTransactionId ∧
      (cc_process_refund cc r ⟨CCResponse.ok 200 (some j), vr, rr⟩).2 = ⟨false, false⟩) := by
  refine ⟨fun hA => ?_, fun hA hV => ?_, fun hA hV hR => ?_, fun hA hV hR => ?_⟩
  · simp [cc_process_refund, ccRefundState, hA, rInit]
  · simp [cc_process_refund, ccRefundState, hA, hV, rInit]
  · simp [cc_process_refund, ccRefundState, hA, hV, hR, rInit]
  · simp [cc_process_refund, ccRefundState, hA, hV, hR, rInit]

/-- Witness for C2: all four decision cases at concrete inquiry bodies. -/
theorem C2_refund_decision_witness :
    ((cc_process_refund ccTest refundA
        ⟨CCResponse.ok 200 (some { respstat := some "C" }), CCResponse.exn, CCResponse.exn⟩).1.statusCode = 409) ∧
    ((cc_process_refund ccTest refundA
        ⟨CCResponse.ok 200 (some { respstat := some "A", voidable := some "Y", refundable := some "Y" }),
          CCResponse.exn, CCResponse.exn⟩).2 = ⟨true, false⟩) ∧
    ((cc_process_refund ccTest refundA
        ⟨CCResponse.ok 200 (some { respstat := some "A", voidable := some "N", refundable := some "Y" }),
          CCResponse.exn, CCResponse.exn⟩).2 = ⟨false, true⟩) ∧
    ((cc_process_refund ccTest refundA
        ⟨CCResponse.ok 200 (some { respstat := some "A", voidable := some "N", refundable := some "N" }),
          CCResponse.exn, CCResponse.exn⟩).1.statusCode = 409) := by
  refine ⟨?_, ?_, ?_, ?_⟩
  · exact ((C2_refund_decision ccTest refundA { respstat := some "C" }
      CCResponse.exn CCResponse.exn).1 (by decide)).1
  · exact (C2_refund_decision ccTest refundA
      { respstat := some "A", voidable := some "Y", refundable := some "Y" }
      CCResponse.exn CCResponse.exn).2.1 rfl rfl
  · exact (C2_refund_decision ccTest refundA
      { respstat := some "A", voidable := some "N", refundable := some "Y" }
      CCResponse.exn CCResponse.exn).2.2.1 rfl (by decide) rfl
  · exact ((C2_refund_decision ccTest refundA
      { respstat := some "A", voidable := some "N", refundable := some "N" }
      CCResponse.exn CCResponse.exn).2.2.2 rfl (by decide) (by decide)).1

/-- The inquiry body of an approved, voidable payment. -/
def inqVoidable : CCJson := { respstat := some "A", voidable := some "Y" }

/-- A void response declining the void: HTTP 200, `respstat` Declined with
vendor text and a `retref`. -/
def voidDeclinedBody : CCJson :=
  { respstat := some "C", resptext := some "Do not honor", retref := some "RR1" }

/-- Oracle for the Declined-void scenario. -/
def voidDeclinedOracle : CCRefundOracle :=
  ⟨CCResponse.ok 200 (some inqVoidable), CCResponse.ok 200 (some voidDeclinedBody),
    CCResponse.exn⟩

/-- C3 (failing input): a void response with HTTP 200, non-Approved
`respstat` = Declined and vendor `resptext` present does NOT produce the
claimed 409-with-resptext result: line 303 of cardconnect.py is a bare
string expression that never assigns `message`, so `message += resptext`
raises `TypeError` on `None`, and the inner handler returns the 500
internal-error result instead. -/
theorem C3_declined_void_internal_error :
    (cc_process_refund ccTest refundA voidDeclinedOracle).1.success = false ∧
    (cc_process_refund ccTest refundA voidDeclinedOracle).1.statusCode = 500 ∧
    (cc_process_refund ccTest refundA voidDeclinedOracle).1.responseMessage =
      some "An unknown error occurred while processing void transaction." ∧
    (cc_process_refund ccTest refundA voidDeclinedOracle).1.transactionId =
      some "23456789" ∧
    (cc_process_refund ccTest refundA voidDeclinedOracle).2.voidCalled = true := by
  exact ⟨rfl, rfl, rfl, rfl, rfl⟩

/-- C4: CardConnect payment outcome interpretation for a parsed HTTP-200
auth response (given a valid currency so the call is reached):
respstat=A ⇒ success, 200, "Success."; respstat=B ⇒ failure, 400,
"Please retry the request." with any non-empty vendor `resptext` appended;
any other respstat ⇒ failure, 400, "Authorization failed." with any
non-empty vendor `resptext` appended; and a present non-empty `retref` is
returned as the transaction id in every case. -/
theorem C4_payment_interpretation (cc : CCProcessor) (p : Payment) (j : CCJson)
    (hcur : (currencyCodeName p.currencyType).isSome = true) :
    (j.respstat = some "A" →
      (cc_process_payment cc p (CCResponse.ok 200 (some j))).1.success = true ∧
      (cc_process_payment cc p (CCResponse.ok 200 (some j))).1.statusCode = 200 ∧
      (cc_process_payment cc p (CCResponse.ok 200 (some j))).1.responseMessage =
        some "Success.") ∧
    (j.respstat = some "B" →
      (cc_process_payment cc p (CCResponse.ok 200 (some j))).1.success = false ∧
      (cc_process_payment cc p (CCResponse.ok 200 (some j))).1.statusCode = 400 ∧
      (∀ t, j.resptext = some t → t ≠ "" →
        (cc_process_payment cc p (CCResponse.ok 200 (some j))).1.responseMessage =
          some ("Please retry the request." ++ " " ++ t ++ ".")) ∧
      (j.resptext = none →
        (cc_process_payment cc p (CCResponse.ok 200 (some j))).1.responseMessage =
          some "Please retry the request.")) ∧
    (j.respstat ≠ some "A" → j.respstat ≠ some "B" →
      (cc_process_payment cc p (CCResponse.ok 200 (some j))).1.success = false ∧
      (cc_process_payment cc p (CCResponse.ok 200 (some j))).1.statusCode = 400 ∧
      (∀ t, j.resptext = some t → t ≠ "" →
        (cc_process_payment cc p (CCResponse.ok 200 (some j))).1.responseMessage =
          some ("Authorization failed." ++ " " ++ t ++ ".")) ∧
      (j.resptext = none →
        (cc_process_payment cc p (CCResponse.ok 200 (some j))).1.responseMessage =
          some "Authorization failed.")) ∧
    (∀ t, j.retref = some t → t ≠ "" →
      (cc_process_payment cc p (CCResponse.ok 200 (some j))).1.transactionId = some t) := by
  obtain ⟨d, hd⟩ : ∃ d, buildAuthData cc p = some d := by
    have := buildAuthData_isSome cc p
    rw [hcur] at this
    exact Option.isSome_iff_exists.mp this
  refine ⟨fun hA => ?_, fun hB => ?_, fun hA hB => ?_, fun t ht hne => ?_⟩
  · simp [cc_process_payment, hd, ccAuthInterp, hA]
  · have hA : j.respstat ≠ some "A" := by simp [hB]
    refine ⟨?_, ?_, fun t ht hne => ?_, fun ht => ?_⟩
    · simp [cc_process_payment, hd, ccAuthInterp, hA]
    · simp [cc_process_payment, hd, ccAuthInterp, hA]
    · simp [cc_process_payment, hd, ccAuthInterp, ccAuthFailMsg, hA, hB, ht, hne]
    · simp [cc_process_payment, hd, ccAuthInterp, ccAuthFailMsg, hA, hB, ht]
  · refine ⟨?_, ?_, fun t ht hne => ?_, fun ht => ?_⟩
    · simp [cc_process_payment, hd, ccAuthInterp, hA]
    · simp [cc_process_payment, hd, ccAuthInterp, hA]
    · simp [cc_process_payment, hd, ccAuthInterp, ccAuthFailMsg, hA, hB, ht, hne]
    · simp [cc_process_payment, hd, ccAuthInterp, ccAuthFailMsg, hA, hB, ht]
  · by_cases hA : j.respstat = some "A" <;>
      simp [cc_process_payment, hd, ccAuthInterp, truthy, hA, ht, hne]

/-- Witness for C4: the Approved, Retry and Declined interpretation at
concrete response bodies with the documented vendor texts. -/
theorem C4_payment_interpretation_witness :
    ((cc_process_payment ccTest paymentA
        (CCResponse.ok 200 (some { respstat := some "A", retref := some "T9" }))).1.success = true) ∧
    ((cc_process_payment ccTest paymentA
        (CCResponse.ok 200 (some { respstat := some "A", retref := some "T9" }))).1.transactionId = some "T9") ∧
    ((cc_process_payment ccTest paymentA
        (CCResponse.ok 200 (some { respstat := some "B", resptext := some "Timed out" }))).1.responseMessage =
      some ("Please retry the request." ++ " " ++ "Timed out" ++ ".")) ∧
    ((cc_process_payment ccTest paymentA
        (CCResponse.ok 200 (some { respstat := some "C", resptext := some "Do not honor" }))).1.responseMessage =
      some ("Authorization failed." ++ " " ++ "Do not honor" ++ ".")) := by
  refine ⟨?_, ?_, ?_, ?_⟩
  · exact ((C4_payment_interpretation ccTest paymentA
      { respstat := some "A", retref := some "T9" } rfl).1 rfl).1
  · exact (C4_payment_interpretation ccTest paymentA
      { respstat := some "A", retref := some "T9" } rfl).2.2.2 "T9" rfl (by decide)
  · exact ((C4_payment_interpretation ccTest paymentA
      { respstat := some "B", resptext := some "Timed out" } rfl).2.1 rfl).2.2.1
      "Timed out" rfl (by decide)
  · exact ((C4_payment_interpretation ccTest paymentA
      { respstat := some "C", resptext := some "Do not honor" } rfl).2.2.1
      (by decide) (by decide)).2.2.1 "Do not honor" rfl (by decide)

/-- C5: Dispatcher precondition enforcement, as implemented identically in
`submit_sale` and `submit_credit`: a gateway-type id outside {1, 2} is
rejected with 400 "Unknown payment gateway type" before any adapter is
instantiated (hence no network call); a known gateway whose required
credential key set is not contained in the supplied key set is rejected
with the 400 missing-credentials failure, again with no adapter invoked. -/
theorem C5_dispatcher_preconditions (gatewayTypeId : Int) (credKeys : List String) :
    (gatewayTypeId ≠ 1 → gatewayTypeId ≠ 2 →
      gatewayDispatch gatewayTypeId credKeys =
        DispatchOutcome.rejected 400 "Unknown payment gateway type") ∧
    (gatewayTypeId = 1 → ¬(∀ k ∈ payloadRequiredKeys, k ∈ credKeys) →
      gatewayDispatch gatewayTypeId credKeys =
        DispatchOutcome.rejected 400 "Required credentials for Payload are not present") ∧
    (gatewayTypeId = 2 → ¬(∀ k ∈ cardConnectRequiredKeys, k ∈ credKeys) →
      gatewayDispatch gatewayTypeId credKeys =
        DispatchOutcome.rejected 400 "Required credentials for CardConnect are not present") := by
  refine ⟨fun h1 h2 => ?_, fun h1 hk => ?_, fun h2 hk => ?_⟩
  · simp [gatewayDispatch, h1, h2]
  · subst h1
    simp [gatewayDispatch]
    push_neg at hk
    simpa using hk
  · subst h2
    simp [gatewayDispatch]
    push_neg at hk
    simpa using hk

/-- Witness for C5: gateway type 3 is unknown; type 1 with no keys and
type 2 with only a username are missing credentials. -/
theorem C5_dispatcher_preconditions_witness :
    gatewayDispatch 3 ["apiKey", "processingId"] =
      DispatchOutcome.rejected 400 "Unknown payment gateway type" ∧
    gatewayDispatch 1 [] =
      DispatchOutcome.rejected 400 "Required credentials for Payload are not present" ∧
    gatewayDispatch 2 ["username"] =
      DispatchOutcome.rejected 400 "Required credentials for CardConnect are not present" := by
  refine ⟨?_, ?_, ?_⟩
  · exact (C5_dispatcher_preconditions 3 ["apiKey", "processingId"]).1
      (by decide) (by decide)
  · exact (C5_dispatcher_preconditions 1 []).2.1 rfl (by decide)
  · exact (C5_dispatcher_preconditions 2 ["username"]).2.2 rfl (by decide)

/-- The inquiry-401 oracle for the C6 counterexample. -/
def inq401Oracle : CCRefundOracle := ⟨CCResponse.ok 401 none, CCResponse.exn, CCResponse.exn⟩

/-- C6 counterexample: on an inquiry response with HTTP status 401 the
result's transaction id is NOT set to the original payment transaction id
— the 401 branch (cardconnect.py 414-419) never assigns it, refuting the
claim's "in both cases". -/
theorem C6_inquiry_401_no_txn_id :
    (cc_process_refund ccTest refundA inq401Oracle).1.statusCode = 401 ∧
    (cc_process_refund ccTest refundA inq401Oracle).1.transactionId = none ∧
    (cc_process_refund ccTest refundA inq401Oracle).1.transactionId ≠
      some refundA.paymentTransactionId := by
  exact ⟨rfl, rfl, by decide⟩

/-- C6 as amended: for every inquiry call returning a non-2xx HTTP status,
the failure result carries the passthrough status; in the 401 case the
message is the authorization error and the transaction id is left null,
and in every other non-2xx case the message is the network/support text
and the transaction id is set to the original payment transaction id. -/
theorem C6_inquiry_transport_failure (cc : CCProcessor) (r : Refund) (s : Nat)
    (body : Option CCJson) (vr rr : CCResponse) (h : s < 200 ∨ 300 ≤ s) :
    (s = 401 →
      (cc_process_refund cc r ⟨CCResponse.ok s body, vr, rr⟩).1.statusCode = 401 ∧
      (cc_process_refund cc r ⟨CCResponse.ok s body, vr, rr⟩).1.responseMessage =
        some "There was an authorization error while accessing your previous payment status." ∧
      (cc_process_refund cc r ⟨CCResponse.ok s body, vr, rr⟩).1.transactionId = none) ∧
    (s ≠ 401 →
      (cc_process_refund cc r ⟨CCResponse.ok s body, vr, rr⟩).1.statusCode = s ∧
      (cc_process_refund cc r ⟨CCResponse.ok s body, vr, rr⟩).1.responseMessage =
        some "Unable to complete request for payment status. Please contact BlueVolt support." ∧
      (cc_process_refund cc r ⟨CCResponse.ok s body, vr, rr⟩).1.transactionId =
        some r.paymentTransactionId) := by
  have hs : s ≠ 200 := by omega
  refine ⟨fun h401 => ?_, fun h401 => ?_⟩ <;>
    simp [cc_process_refund, ccRefundState, hs, h401, rInit]

/-- Witness for C6 as amended: statuses 401 and 503. -/
theorem C6_inquiry_transport_failure_witness :
    (cc_process_refund ccTest refundA inq401Oracle).1.statusCode = 401 ∧
    (cc_process_refund ccTest refundA
      ⟨CCResponse.ok 503 none, CCResponse.exn, CCResponse.exn⟩).1.transactionId =
      some refundA.paymentTransactionId := by
  refine ⟨?_, ?_⟩
  · exact ((C6_inquiry_transport_failure ccTest refundA 401 none CCResponse.exn
      CCResponse.exn (by omega)).1 rfl).1
  · exact ((C6_inquiry_transport_failure ccTest refundA 503 none CCResponse.exn
      CCResponse.exn (by omega)).2 (by decide)).2.2

/-- C7: Payload comment truncation: when the comment is a string, every
description transmitted upstream — by the create-payment call, the void
status update and the refund creation — is exactly the first 128 units of
the comment, and hence never longer than 128 units. -/
theorem C7_comment_truncation (p : Payment) (r : Refund) (oc : PlCreateOutcome)
    (o : PlRefundOracle) (c c2 : String)
    (hp : p.comment = some c) (hr : r.comment = some c2) :
    (∀ d, (pl_process_payment p oc).2.sentDescription = some d →
      d = strTake c 128 ∧ d.length ≤ 128) ∧
    (∀ d, (pl_process_refund r o).2.voidUpdateDescription = some d →
      d = strTake c2 128 ∧ d.length ≤ 128) ∧
    (∀ d, (pl_process_refund r o).2.refundCreateDescription = some d →
      d = strTake c2 128 ∧ d.length ≤ 128) := by
  have descOk : ∀ (a d : String), strTake a 128 = d →
      d = strTake a 128 ∧ d.length ≤ 128 :=
    fun a d h => ⟨h.symm, h ▸ strTake_length_le a 128⟩
  refine ⟨fun d hd => ?_, fun d hd => ?_, fun d hd => ?_⟩
  · cases oc <;>
      simp only [pl_process_payment, plPayState, hp] at hd <;>
      simp at hd <;>
      first
        | exact descOk c d hd
        | exact descOk c d hd.symm
  all_goals
    rcases o with ⟨gp, tg, tu, rc⟩
    cases gp <;> cases tg <;> cases tu <;> cases rc <;>
      simp only [pl_process_refund, plRefundState, hr] at hd <;>
      (repeat' split at hd) <;>
      simp at hd <;>
      first
        | exact descOk c2 d hd
        | exact descOk c2 d hd.symm

/-- A 200-character comment. -/
def commentLong : String := String.mk (List.replicate 200 'x')

/-- The Payload payment request carrying the long comment. -/
def paymentLong : Payment := { paymentA with gatewayTypeId := 1, comment := some commentLong }

/-- Witness for C7: a 200-unit comment is cut to its first 128 units on the
create-payment call. -/
theorem C7_comment_truncation_witness :
    (pl_process_payment paymentLong
      (PlCreateOutcome.created "processed" "Transaction processed" "pm_1")).2.sentDescription =
      some (strTake commentLong 128) ∧
    (strTake commentLong 128).length ≤ 128 := by
  have h := (C7_comment_truncation paymentLong refundA
    (PlCreateOutcome.created "processed" "Transaction processed" "pm_1")
    ⟨PlGetOutcome.other, PlTxGetOutcome.other, PlOpOutcome.other, PlOpOutcome.other⟩
    commentLong "refund 42" rfl rfl).1
  have hsd : (pl_process_payment paymentLong
      (PlCreateOutcome.created "processed" "Transaction processed" "pm_1")).2.sentDescription =
      some (strTake commentLong 128) := rfl
  exact ⟨hsd, (h _ hsd).2⟩

/-- A CardConnect payment whose optional cardholder name is absent. -/
def paymentNoName : Payment := { paymentA with name := none }

/-- C8 (failing input): the auth request body construction always contains
the `name` key — the dict initializer on cardconnect.py line 130 sets
`"name": payment.name` unconditionally, so when the cardholder name is
absent the key is present with a null value, contradicting the claimed
(and commented, line 138) include-only-if-non-empty behaviour.  The postal
and userfields parts of the claim do hold on this input. -/
theorem C8_name_field_always_present :
    ∃ d, buildAuthData ccTest paymentNoName = some d ∧
      paymentNoName.name = none ∧
      d.nameField = some none ∧
      d.nameField ≠ none ∧
      d.postal = some "97201" ∧
      d.userfieldsDescription = "order 42" := by
  exact ⟨_, rfl, rfl, rfl, by decide, rfl, rfl⟩

/-- A Payload refund request with no comment. -/
def refundNoComment : Refund := { refundA with gatewayTypeId := 1, comment := none }

/-- An oracle whose payment lookup returns a non-voided payment with an
unrecognized funding status. -/
def unknownFundingOracle : PlRefundOracle :=
  ⟨PlGetOutcome.got "processed" "rejected" 1000, PlTxGetOutcome.got,
    PlOpOutcome.other, PlOpOutcome.other⟩

/-- C9 counterexample: a Payload refund with the comment absent and the
target payment not voided does NOT always return the 422 failure — with an
unrecognized funding status the `ValueError` at payload.py 145 fires before
the comment is ever sliced, yielding the 400 unknown-funding-status
failure. -/
theorem C9_unknown_funding_not_422 :
    refundNoComment.comment = none ∧
    (pl_process_refund refundNoComment unknownFundingOracle).1.gatewayHttpStatusCode = 400 ∧
    (pl_process_refund refundNoComment unknownFundingOracle).1.gatewayHttpStatusCode ≠ 422 ∧
    (pl_process_refund refundNoComment unknownFundingOracle).1.success = false := by
  exact ⟨rfl, rfl, by decide, rfl⟩

/-- C9 as amended: a Payload payment with the comment absent returns the
422 "Unknown Payload response type" failure without creating a payment;
a Payload refund with the comment absent whose target payment is not
already voided returns the same 422 failure with no void or refund write
when the funding status is batched, or pending with the transaction lookup
succeeding (the `TypeError` from slicing `None` fires before the upstream
write); with any other funding status the local unknown-funding
`ValueError` yields a 400 instead. -/
theorem C9_missing_comment (p : Payment) (r : Refund) (oc : PlCreateOutcome)
    (o : PlRefundOracle) (hp : p.comment = none) (hr : r.comment = none) :
    ((pl_process_payment p oc).1.success = false ∧
     (pl_process_payment p oc).1.gatewayHttpStatusCode = 422 ∧
     (pl_process_payment p oc).1.responseMessage = some "Unknown Payload response type" ∧
     (pl_process_payment p oc).2.createCalled = false) ∧
    (∀ st fnd amt, o.getPayment = PlGetOutcome.got st fnd amt → st ≠ "voided" →
      ((fnd = "pending" → o.txGet = PlTxGetOutcome.got →
        (pl_process_refund r o).1.success = false ∧
        (pl_process_refund r o).1.gatewayHttpStatusCode = 422 ∧
        (pl_process_refund r o).1.responseMessage = some "Unknown Payload response type" ∧
        (pl_process_refund r o).2 = ⟨none, none⟩) ∧
       (fnd = "batched" →
        (pl_process_refund r o).1.success = false ∧
        (pl_process_refund r o).1.gatewayHttpStatusCode = 422 ∧
        (pl_process_refund r o).1.responseMessage = some "Unknown Payload response type" ∧
        (pl_process_refund r o).2 = ⟨none, none⟩) ∧
       (fnd ≠ "pending" → fnd ≠ "batched" →
        (pl_process_refund r o).1.success = false ∧
        (pl_process_refund r o).1.gatewayHttpStatusCode = 400))) := by
  constructor
  · simp [pl_process_payment, plPayState, hp, plFailSt]
  · intro st fnd amt hg hv
    refine ⟨fun hf ht => ?_, fun hf => ?_, fun hf1 hf2 => ?_⟩
    · simp [pl_process_refund, plRefundState, hg, hv, hf, ht, hr, plFailSt]
    · simp [pl_process_refund, plRefundState, hg, hv, hf, hr, plFailSt]
    · simp [pl_process_refund, plRefundState, hg, hv, hf1, hf2, hr, plFailSt]

/-- A Payload payment request with no comment. -/
def paymentNoComment : Payment := { paymentA with gatewayTypeId := 1, comment := none }

/-- An oracle returning a pending, non-voided payment with a working
transaction lookup. -/
def pendingOracle : PlRefundOracle :=
  ⟨PlGetOutcome.got "processed" "pending" 1000, PlTxGetOutcome.got,
    PlOpOutcome.other, PlOpOutcome.other⟩

/-- An oracle returning a batched, non-voided payment. -/
def batchedOracle : PlRefundOracle :=
  ⟨PlGetOutcome.got "processed" "batched" 1000, PlTxGetOutcome.got,
    PlOpOutcome.other, PlOpOutcome.other⟩

/-- Witness for C9 as amended: absent comment on a payment, on a pending
refund and on a batched refund. -/
theorem C9_missing_comment_witness :
    (pl_process_payment paymentNoComment PlCreateOutcome.other).1.gatewayHttpStatusCode = 422 ∧
    (pl_process_refund refundNoComment pendingOracle).1.gatewayHttpStatusCode = 422 ∧
    (pl_process_refund refundNoComment batchedOracle).1.gatewayHttpStatusCode = 422 := by
  have h1 := C9_missing_comment paymentNoComment refundNoComment PlCreateOutcome.other
    pendingOracle rfl rfl
  have h2 := C9_missing_comment paymentNoComment refundNoComment PlCreateOutcome.other
    batchedOracle rfl rfl
  refine ⟨h1.1.2.1, ?_, ?_⟩
  · exact ((h1.2 "processed" "pending" 1000 rfl (by decide)).1 rfl rfl).2.1
  · exact ((h2.2 "processed" "batched" 1000 rfl (by decide)).2.1 rfl).2.1

end PaymentGateway
